import Mathlib

/-!
Verification development for the avatar-generation backend (src/app.py).

The service is a Flask app with a single interesting route, POST
/generate-avatar, which authenticates the caller, validates the request
body, submits a batch avatar-synthesis job to the provider, polls the job
until it finishes, downloads the resulting video to a temporary file,
re-uploads it to the hosting provider, deletes the temporary file and
returns the hosted URL.

The embedding below is shallow: the external providers are modelled by an
environment `Env` that fixes the responses the network would return, and
wall-clock time is a natural-number clock threaded through the polling
loop.  Python exceptions are modelled by the inductive `PyExc`; the route
handler's `except` clauses become the total function `statusOfExc`, which
mirrors the Python class hierarchy: `TimeoutError` is caught first (504),
then `RuntimeError` (502), and everything else - in particular
`requests.exceptions.HTTPError` raised by `raise_for_status` and the
cloudinary upload error, neither of which subclasses `RuntimeError` or
`TimeoutError` - falls to the generic `except Exception` clause (500).
-/

deriving instance DecidableEq for Except

/-- The avatar catalog from app.py: character to its allowed styles. -/
def AVATARS : List (String × List String) :=
  [("harry", ["business", "casual", "youthful"]),
   ("jeff", ["business", "formal"]),
   ("lisa", ["casual-sitting", "graceful-sitting", "graceful-standing",
             "technical-sitting", "technical-standing"]),
   ("lori", ["casual", "graceful", "formal"]),
   ("max", ["business", "casual", "formal"]),
   ("meg", ["formal", "casual", "business"])]

/-- The voice catalog from app.py: gender to the list of voice ids. -/
def VOICES : List (String × List String) :=
  [("female", ["th-TH-PremwadeeNeural", "th-TH-AcharaNeural"]),
   ("male", ["th-TH-NiwatNeural"])]

/-- ALL_VOICES = [v for vs in VOICES.values() for v in vs]. -/
def ALL_VOICES : List String := (VOICES.map Prod.snd).flatten

/-- Python str.strip(): drop leading and trailing whitespace.  (Python also
strips some further Unicode whitespace; the claims only involve ASCII.) -/
def pyStrip (s : String) : String :=
  String.mk (((s.data.dropWhile Char.isWhitespace).reverse.dropWhile
      Char.isWhitespace).reverse)

/-- Contiguous-sublist test on character lists, used to state that one
string occurs verbatim inside another. -/
def listContains (pat : List Char) : List Char → Bool
  | [] => pat.isEmpty
  | c :: rest => pat.isPrefixOf (c :: rest) || listContains pat rest

/-- `strContains s pat = true` iff `pat` occurs contiguously in `s`. -/
def strContains (s pat : String) : Bool :=
  listContains pat.data s.data

-- ── Polling ──────────────────────────────────────────────────────────────

/-- The fields of a parsed poll-response body that poll_avatar_job reads:
`status = data.get("status")` and
`result = data.get("outputs", {}).get("result")`. -/
structure PollData where
  status : Option String
  result : Option String
deriving DecidableEq

/-- One provider response to a status query: HTTP status code plus the
parsed JSON body. -/
structure PollResp where
  code : Nat
  data : PollData
deriving DecidableEq

/-- Outcome of poll_avatar_job.  `ok` is the returned video URL;
`invariantErr` is the RuntimeError "Job succeeded but no result URL found";
`jobFailed` is the RuntimeError carrying the provider's full response body;
`httpError` is the requests.HTTPError from `resp.raise_for_status()`;
`timedOut t` is the TimeoutError, raised at clock value `t`;
`noFuel` marks exhaustion of the modelling fuel (not a program outcome). -/
inductive PollResult where
  | ok (url : String)
  | invariantErr
  | jobFailed (d : PollData)
  | httpError (code : Nat)
  | timedOut (t : Nat)
  | noFuel
deriving DecidableEq

/-- The terminal-status test inside the polling loop's body, for one parsed
response: `some r` means the loop ends with result `r`, `none` means the
loop sleeps and polls again.  Note `if not video_url` in Python treats the
empty string like a missing field. -/
def pollStep (d : PollData) : Option PollResult :=
  if d.status = some "Succeeded" then
    match d.result with
    | none => some PollResult.invariantErr
    | some u => if u = "" then some PollResult.invariantErr else some (PollResult.ok u)
  else if d.status = some "Failed" then some (PollResult.jobFailed d)
  else none

/-- The `while time.time() < deadline` loop of poll_avatar_job.  `resp n` is
the provider's answer to the (n+1)-th status query and `dur n` the wall-clock
seconds that query takes; `t` is the current clock, `acc` the (reversed)
clock values at which queries were issued so far (so `acc.length` is the
number of queries already made).  `resp.raise_for_status()` raises
HTTPError exactly for the client/server error band 400 ≤ code < 600; any
other code falls through to the JSON body.  Returns the outcome together
with the list of query times.  `fuel` bounds the number of iterations so
the function is total; `noFuel` is returned only when it runs out. -/
def pollLoop (resp : Nat → PollResp) (dur : Nat → Nat) (deadline interval : Nat) :
    Nat → Nat → List Nat → PollResult × List Nat
  | 0, t, acc =>
    if t < deadline then (PollResult.noFuel, acc.reverse)
    else (PollResult.timedOut t, acc.reverse)
  | fuel + 1, t, acc =>
    if t < deadline then
      let r := resp acc.length
      if 400 ≤ r.code ∧ r.code < 600 then (PollResult.httpError r.code, (t :: acc).reverse)
      else
        match pollStep r.data with
        | some res => (res, (t :: acc).reverse)
        | none =>
          pollLoop resp dur deadline interval fuel (t + dur acc.length + interval) (t :: acc)
    else (PollResult.timedOut t, acc.reverse)

/-- poll_avatar_job: poll from clock value `start` with deadline
`start + timeout`, sleeping `interval` seconds between queries. -/
def poll_avatar_job (resp : Nat → PollResp) (dur : Nat → Nat)
    (start timeout interval fuel : Nat) : PollResult × List Nat :=
  pollLoop resp dur (start + timeout) interval fuel start []

/-- The clock values of `n` consecutive queries that each take no time,
starting at `t` and spaced `interval` apart. -/
def pollTimes (t interval : Nat) : Nat → List Nat
  | 0 => []
  | n + 1 => t :: pollTimes (t + interval) interval n

-- ── Exceptions and the provider environment ─────────────────────────────

/-- The Python exceptions the /generate-avatar try block can see.
`runtimeError` covers the RuntimeErrors raised by create_avatar_job and
poll_avatar_job; `timeoutError` the TimeoutError of the polling deadline;
`httpError` the requests.exceptions.HTTPError from `raise_for_status` (a
subclass of OSError, neither of RuntimeError nor of TimeoutError);
`cloudinaryError` the cloudinary upload error (a direct Exception
subclass). -/
inductive PyExc where
  | runtimeError (msg : String)
  | timeoutError (msg : String)
  | httpError (code : Nat)
  | cloudinaryError (msg : String)
deriving DecidableEq

/-- The route handler's `except` clauses, in source order: TimeoutError →
504, RuntimeError → 502, Exception → 500. -/
def statusOfExc : PyExc → Nat
  | PyExc.timeoutError _ => 504
  | PyExc.runtimeError _ => 502
  | PyExc.httpError _ => 500
  | PyExc.cloudinaryError _ => 500

/-- An abstract rendering of `str(e)` for a requests.HTTPError. -/
def httpErrStr (code : Nat) : String :=
  toString code ++ " Error for url"

/-- The JSON error message the route returns for an exception: `str(e)` for
the TimeoutError/RuntimeError clauses, and `f"Unexpected error: {e}"` for
the generic clause. -/
def excBody : PyExc → String
  | PyExc.timeoutError m => m
  | PyExc.runtimeError m => m
  | PyExc.httpError c => "Unexpected error: " ++ httpErrStr c
  | PyExc.cloudinaryError m => "Unexpected error: " ++ m

/-- The behaviour of the external world for one request: the uuid the
service generates for the job, the provider's response to the job-creation
PUT (`submitCode`, `submitText`), its responses to the status queries
(`pollResp`) and how long each query takes (`pollDur`), the clock value at
which polling starts, the HTTP status of the artifact download GET, the
temporary file path the download creates, and the outcome of the hosting
upload (error message or secure URL). -/
structure Env where
  jobId : String
  submitCode : Nat
  submitText : String
  pollResp : Nat → PollResp
  pollDur : Nat → Nat
  startTime : Nat
  dlCode : Nat
  tmpPath : String
  upload : Except String String

/-- create_avatar_job: submit the synthesis job.  The provider's answer to
the PUT is `(e.submitCode, e.submitText)`; a status of 400 or above raises
`RuntimeError(f"Azure job creation failed [{status}]: {body}")`, otherwise
the freshly generated job id (`e.jobId`) is returned. -/
def create_avatar_job (e : Env) : Except PyExc String :=
  if 400 ≤ e.submitCode then
    Except.error (PyExc.runtimeError
      ("Azure job creation failed [" ++ toString e.submitCode ++ "]: " ++ e.submitText))
  else Except.ok e.jobId

/-- An abstract rendering of `json.dumps(data, indent=2)` for a poll body. -/
def pollDataRepr (d : PollData) : String :=
  "status: " ++ (d.status.getD "null") ++ ", outputs.result: " ++ (d.result.getD "null")

/-- Map the outcome of the polling loop to the exception or return value
the caller of poll_avatar_job sees; `none` only for the fuel artifact. -/
def pollToExcept (jobId : String) (timeout : Nat) :
    PollResult → Option (Except PyExc String)
  | PollResult.ok u => some (Except.ok u)
  | PollResult.invariantErr =>
      some (Except.error (PyExc.runtimeError "Job succeeded but no result URL found"))
  | PollResult.jobFailed d =>
      some (Except.error (PyExc.runtimeError ("Avatar job failed: " ++ pollDataRepr d)))
  | PollResult.httpError c => some (Except.error (PyExc.httpError c))
  | PollResult.timedOut _ =>
      some (Except.error (PyExc.timeoutError
        ("Avatar job " ++ jobId ++ " did not finish within " ++ toString timeout ++ "s")))
  | PollResult.noFuel => none

/-- download_file: the GET for the artifact answers with status `e.dlCode`;
`raise_for_status` raises HTTPError exactly for the client/server error
band 400 ≤ code < 600; for any other code the response is streamed to a
fresh temporary file whose path is returned. -/
def download_file (e : Env) : Except PyExc String :=
  if 400 ≤ e.dlCode ∧ e.dlCode < 600 then Except.error (PyExc.httpError e.dlCode)
  else Except.ok e.tmpPath

/-- upload_to_cloudinary: the hosting upload either raises the provider's
error or returns the secure URL. -/
def upload_to_cloudinary (e : Env) : Except PyExc String :=
  match e.upload with
  | Except.error m => Except.error (PyExc.cloudinaryError m)
  | Except.ok url => Except.ok url

-- ── The inbound request and the route handler ───────────────────────────

/-- An inbound POST /generate-avatar request.  `headerKey` is the value of
the X-API-Key header if it is sent.  `body` is the request body parsed as a
JSON object of string fields; `none` models a body that does not parse as
JSON, on which Flask's `request.json` (used by the auth line) aborts with a
400 Bad Request, while `request.get_json(silent=True)` (used by the
validation code) yields None. -/
structure Req where
  headerKey : Option String
  body : Option (List (String × String))

/-- `request.json.get("key")`: abort with 400 on an unparseable body,
otherwise the body's "key" field if any. -/
def bodyKey : Option (List (String × String)) → Except Nat (Option String)
  | none => Except.error 400
  | some b => Except.ok (b.lookup "key")

/-- `request.headers.get("X-API-Key") or request.json.get("key")`: the
header wins when present and non-empty (Python truthiness); otherwise the
body is consulted, which can abort with 400. -/
def resolvedKey (r : Req) : Except Nat (Option String) :=
  match r.headerKey with
  | some k => if k = "" then bodyKey r.body else Except.ok (some k)
  | none => bodyKey r.body

/-- Python's repr of a list of strings, as interpolated into the style
error message. -/
def stylesRepr (l : List String) : String :=
  "[" ++ String.intercalate ", " (l.map (fun s => "\x27" ++ s ++ "\x27")) ++ "]"

/-- Input validation of the route, in source order: text (after strip)
non-empty, voice in ALL_VOICES, character a key of AVATARS, style in that
character's list; defaults are substituted for the three optional fields
before the checks.  Returns the 400 error message, or the validated
(text, voice, character, style, background). -/
def validateBody (data : List (String × String)) :
    Except String (String × String × String × String × Option String) :=
  let text := pyStrip ((data.lookup "text").getD "")
  if text = "" then Except.error "Missing \x27text\x27 field"
  else
    let voice := (data.lookup "voice").getD "th-TH-NiwatNeural"
    let character := (data.lookup "talkingAvatarCharacter").getD "harry"
    let style := (data.lookup "talkingAvatarStyle").getD "casual"
    let background := data.lookup "background"
    if voice ∈ ALL_VOICES then
      match AVATARS.lookup character with
      | none =>
          Except.error ("Invalid character \x27" ++ character ++
            "\x27. See GET /models for options.")
      | some styles =>
          if style ∈ styles then Except.ok (text, voice, character, style, background)
          else
            Except.error ("Invalid style \x27" ++ style ++ "\x27 for character \x27" ++
              character ++ "\x27. Valid: " ++ stylesRepr styles)
    else
      Except.error ("Invalid voice \x27" ++ voice ++ "\x27. See GET /voices for options.")

/-- One outbound network call made while serving a request.  The submit
call records the job payload fields taken from the validated request. -/
inductive ExtCall where
  | submit (text voice character style : String) (background : Option String)
  | poll
  | download
  | upload
deriving DecidableEq

/-- The observable outcome of one request: HTTP status, the `error` field
of the JSON body if any, the success payload fields, whether the temporary
file was deleted, and the outbound calls that were made. -/
structure HResp where
  status : Nat
  error : Option String
  video_url : Option String
  job_id : Option String
  deleted : Bool
  trace : List ExtCall
deriving DecidableEq

/-- The response for an exception escaping the try block: mapped by the
except clauses, temp file never deleted there. -/
def excResp (exc : PyExc) (calls : List ExtCall) : HResp :=
  { status := statusOfExc exc, error := some (excBody exc), video_url := none,
    job_id := none, deleted := false, trace := calls }

/-- The try block of the route: submit, poll (with timeout 600 and interval
5 as in the source defaults), download, upload, unlink, respond.  `none`
only when the polling fuel runs out (a modelling artifact). -/
def tryBlock (e : Env) (fuel : Nat) (text voice character style : String)
    (background : Option String) : Option HResp :=
  let submitCall := ExtCall.submit text voice character style background
  match create_avatar_job e with
  | Except.error exc => some (excResp exc [submitCall])
  | Except.ok jid =>
    let pr := poll_avatar_job e.pollResp e.pollDur e.startTime 600 5 fuel
    let calls := submitCall :: pr.2.map (fun _ => ExtCall.poll)
    match pollToExcept jid 600 pr.1 with
    | none => none
    | some (Except.error exc) => some (excResp exc calls)
    | some (Except.ok _vurl) =>
      match download_file e with
      | Except.error exc => some (excResp exc (calls ++ [ExtCall.download]))
      | Except.ok _localPath =>
        match upload_to_cloudinary e with
        | Except.error exc =>
            some (excResp exc (calls ++ [ExtCall.download, ExtCall.upload]))
        | Except.ok curl =>
            some { status := 200, error := none, video_url := some curl,
                   job_id := some jid, deleted := true,
                   trace := calls ++ [ExtCall.download, ExtCall.upload] }

/-- The POST /generate-avatar handler: auth (401 on key mismatch, 400 abort
from `request.json` on an unparseable body when the header is absent or
empty), then validation (400 with the first failing check's message, no
outbound call), then the try block. -/
def generate_avatar (apiKey : String) (e : Env) (fuel : Nat) (r : Req) : Option HResp :=
  match resolvedKey r with
  | Except.error c =>
      some { status := c, error := none, video_url := none, job_id := none,
             deleted := false, trace := [] }
  | Except.ok provided =>
    if provided = some apiKey then
      match validateBody (r.body.getD []) with
      | Except.error msg =>
          some { status := 400, error := some msg, video_url := none, job_id := none,
                 deleted := false, trace := [] }
      | Except.ok (text, voice, character, style, background) =>
          tryBlock e fuel text voice character style background
    else
      some { status := 401, error := some "Invalid or missing API key",
             video_url := none, job_id := none, deleted := false, trace := [] }


-- ── Helper lemmas ───────────────────────────────────────────────────────

theorem statusOfExc_ne_200 (x : PyExc) : statusOfExc x ≠ 200 := by
  cases x <;> simp [statusOfExc]

theorem pollStep_pending {d : PollData} (h : d.status = some "Pending") :
    pollStep d = none := by
  simp [pollStep, h]

theorem pollLoop_timeout (resp : Nat → PollResp) (dur : Nat → Nat)
    (deadline interval : Nat) (hi : 1 ≤ interval)
    (hp : ∀ n, (resp n).code < 400 ∧ pollStep (resp n).data = none) :
    ∀ (fuel t : Nat) (acc : List Nat), deadline ≤ t + fuel →
      ∃ tEnd tr,
        pollLoop resp dur deadline interval fuel t acc = (PollResult.timedOut tEnd, tr) ∧
        deadline ≤ tEnd := by
  intro fuel
  induction fuel with
  | zero =>
    intro t acc h
    have ht : ¬ t < deadline := by omega
    exact ⟨t, acc.reverse, by simp [pollLoop, ht], by omega⟩
  | succ f ih =>
    intro t acc h
    by_cases ht : t < deadline
    · have h1 := (hp acc.length).1
      have h2 := (hp acc.length).2
      have hcond : ¬(400 ≤ (resp acc.length).code ∧ (resp acc.length).code < 600) := by
        omega
      rw [pollLoop]
      simp only [if_pos ht, if_neg hcond, h2]
      exact ih (t + dur acc.length + interval) (t :: acc) (by omega)
    · exact ⟨t, acc.reverse, by simp [pollLoop, ht], by omega⟩

theorem pollLoop_ok_trace (resp : Nat → PollResp) (deadline interval : Nat)
    (u : String) :
    ∀ (M fuel t : Nat) (acc : List Nat),
      (∀ j, j < M →
        (resp (acc.length + j)).code < 400 ∧ pollStep (resp (acc.length + j)).data = none) →
      (resp (acc.length + M)).code < 400 →
      pollStep (resp (acc.length + M)).data = some (PollResult.ok u) →
      t + M * interval < deadline → M < fuel →
      pollLoop resp (fun _ => 0) deadline interval fuel t acc =
        (PollResult.ok u, acc.reverse ++ pollTimes t interval (M + 1)) := by
  intro M
  induction M with
  | zero =>
    intro fuel t acc hpend hc hs ht hf
    obtain ⟨f, rfl⟩ : ∃ f, fuel = f + 1 := ⟨fuel - 1, by omega⟩
    have ht' : t < deadline := by omega
    rw [pollLoop]
    simp only [Nat.add_zero] at hc hs
    have hcond : ¬(400 ≤ (resp acc.length).code ∧ (resp acc.length).code < 600) := by
      omega
    simp [ht', hcond, hs, pollTimes]
  | succ M ih =>
    intro fuel t acc hpend hc hs ht hf
    obtain ⟨f, rfl⟩ : ∃ f, fuel = f + 1 := ⟨fuel - 1, by omega⟩
    have ht' : t < deadline := by
      have : M + 1 ≥ 1 := by omega
      have hmul : 1 * interval ≤ (M + 1) * interval := Nat.mul_le_mul_right _ this
      omega
    have h1 := (hpend 0 (by omega)).1
    have h2 := (hpend 0 (by omega)).2
    simp only [Nat.add_zero] at h1 h2
    have hcond : ¬(400 ≤ (resp acc.length).code ∧ (resp acc.length).code < 600) := by
      omega
    rw [pollLoop]
    simp only [if_pos ht', if_neg hcond, h2]
    have step := ih f (t + 0 + interval) (t :: acc)
      (by
        intro j hj
        have := hpend (j + 1) (by omega)
        simpa [Nat.add_comm, Nat.add_assoc, Nat.add_left_comm] using this)
      (by
        have := hc
        simpa [Nat.add_comm, Nat.add_assoc, Nat.add_left_comm] using this)
      (by
        have := hs
        simpa [Nat.add_comm, Nat.add_assoc, Nat.add_left_comm] using this)
      (by
        have : t + (M + 1) * interval = (t + 0 + interval) + M * interval := by ring
        omega)
      (by omega)
    rw [step]
    simp [pollTimes, List.append_assoc]

theorem pollTimes_length (interval : Nat) :
    ∀ (n t : Nat), (pollTimes t interval n).length = n := by
  intro n
  induction n with
  | zero => intro t; simp [pollTimes]
  | succ m ih => intro t; simp [pollTimes, ih]

theorem pollTimes_getD (interval : Nat) :
    ∀ (n t j : Nat), j < n → (pollTimes t interval n).getD j 0 = t + j * interval := by
  intro n
  induction n with
  | zero => intro t j hj; omega
  | succ m ih =>
    intro t j hj
    cases j with
    | zero => simp [pollTimes]
    | succ i =>
      have := ih (t + interval) i (by omega)
      simp only [pollTimes, List.getD_cons_succ, this]
      ring

theorem isPrefixOf_append_self (p : List Char) :
    ∀ b : List Char, p.isPrefixOf (p ++ b) = true := by
  induction p with
  | nil => intro b; simp [List.isPrefixOf]
  | cons c cs ih => intro b; simp [List.isPrefixOf, ih]

theorem listContains_nil_pat : ∀ s : List Char, listContains [] s = true := by
  intro s
  cases s with
  | nil => simp [listContains, List.isEmpty]
  | cons c rest => simp [listContains, List.isPrefixOf]

theorem listContains_append (pat : List Char) :
    ∀ (a b : List Char), listContains pat (a ++ (pat ++ b)) = true := by
  intro a
  induction a with
  | nil =>
    intro b
    cases pat with
    | nil => simpa using listContains_nil_pat b
    | cons c cs =>
      have h := isPrefixOf_append_self (c :: cs) b
      simp only [List.cons_append] at h ⊢
      simp [listContains, h]
  | cons c cs ih =>
    intro b
    simp only [List.cons_append]
    rw [listContains, ih]
    simp

theorem strContains_of_parts (a pat b : String) :
    strContains (a ++ pat ++ b) pat = true := by
  have : (a ++ pat ++ b).data = a.data ++ (pat.data ++ b.data) := by
    simp [String.data_append]
  rw [strContains, this]
  exact listContains_append pat.data a.data b.data

theorem strContains_of_eq (s a pat b : String)
    (h : s.data = a.data ++ (pat.data ++ b.data)) : strContains s pat = true := by
  rw [strContains, h]
  exact listContains_append pat.data a.data b.data

theorem resolvedKey_error {r : Req} {c : Nat}
    (h : resolvedKey r = Except.error c) : c = 400 := by
  unfold resolvedKey bodyKey at h
  split at h
  · split at h
    · split at h <;> simp_all
    · simp_all
  · split at h <;> simp_all

theorem statusOfExc_cases (x : PyExc) :
    statusOfExc x = 504 ∨ statusOfExc x = 502 ∨ statusOfExc x = 500 := by
  cases x <;> simp [statusOfExc]

theorem excResp_deleted (exc : PyExc) (calls : List ExtCall) :
    (excResp exc calls).deleted = false := rfl

theorem tryBlock_cases {e : Env} {fuel : Nat}
    {text voice character style : String} {background : Option String} {res : HResp}
    (h : tryBlock e fuel text voice character style background = some res) :
    (res.status = 200 ∧ res.deleted = true) ∨ (∃ exc calls, res = excResp exc calls) := by
  unfold tryBlock at h
  rcases hc : create_avatar_job e with exc | jid <;> rw [hc] at h
  · right
    exact ⟨exc, _, by simpa using h.symm⟩
  · simp only [] at h
    rcases hpt : pollToExcept jid 600
        (poll_avatar_job e.pollResp e.pollDur e.startTime 600 5 fuel).1 with _ | exv
    · rw [hpt] at h
      simp at h
    · rcases exv with exc | vurl <;> rw [hpt] at h
      · right
        exact ⟨exc, _, by simpa using h.symm⟩
      · rcases hd : download_file e with exc | path <;> rw [hd] at h
        · right
          exact ⟨exc, _, by simpa using h.symm⟩
        · rcases hu : upload_to_cloudinary e with exc | curl <;> rw [hu] at h
          · right
            exact ⟨exc, _, by simpa using h.symm⟩
          · left
            obtain rfl : _ = res := Option.some_injective _ h
            exact ⟨rfl, rfl⟩

theorem generate_avatar_cases {apiKey : String} {e : Env} {fuel : Nat} {r : Req}
    {res : HResp} (h : generate_avatar apiKey e fuel r = some res) :
    (res.status = 400 ∧ res.deleted = false) ∨ (res.status = 401 ∧ res.deleted = false) ∨
    (res.status = 200 ∧ res.deleted = true) ∨ (∃ exc calls, res = excResp exc calls) := by
  unfold generate_avatar at h
  split at h
  next c heq =>
    obtain rfl : _ = res := Option.some_injective _ h
    exact Or.inl ⟨by simpa using resolvedKey_error heq, rfl⟩
  next pk heq =>
    split at h
    · split at h
      next msg heq2 =>
        obtain rfl : _ = res := Option.some_injective _ h
        exact Or.inl ⟨rfl, rfl⟩
      next text voice character style background heq2 =>
        rcases tryBlock_cases h with h2 | h2
        · exact Or.inr (Or.inr (Or.inl h2))
        · exact Or.inr (Or.inr (Or.inr h2))
    · obtain rfl : _ = res := Option.some_injective _ h
      exact Or.inr (Or.inl ⟨rfl, rfl⟩)

-- ── Claims ──────────────────────────────────────────────────────────────

/-- C8 (confirmed): a job-creation call answered by the provider with a
status code of 400 or above fails, and the error message contains the
provider's status code and the response body verbatim; a call answered
with any success status returns the (freshly generated) job id without
error. -/
theorem C8_create_job_error_reporting (e1 e2 : Env)
    (h1 : 400 ≤ e1.submitCode) (h2 : e2.submitCode < 400) :
    (∃ msg, create_avatar_job e1 = Except.error (PyExc.runtimeError msg) ∧
      strContains msg (toString e1.submitCode) = true ∧
      strContains msg e1.submitText = true) ∧
    create_avatar_job e2 = Except.ok e2.jobId := by
  constructor
  · refine ⟨"Azure job creation failed [" ++ toString e1.submitCode ++ "]: " ++ e1.submitText,
      ?_, ?_, ?_⟩
    · simp [create_avatar_job, h1]
    · exact strContains_of_eq _ "Azure job creation failed [" (toString e1.submitCode)
        ("]: " ++ e1.submitText) (by simp [String.data_append])
    · exact strContains_of_eq _
        ("Azure job creation failed [" ++ toString e1.submitCode ++ "]: ") e1.submitText ""
        (by simp [String.data_append])
  · simp [create_avatar_job, Nat.not_le.mpr h2]

/-- C8 witness: provider status 503 with body "boom" yields an error
containing "503" and "boom"; status 201 returns the job id. -/
theorem C8_create_job_error_reporting_witness :
    (∃ msg, create_avatar_job
        { jobId := "j1", submitCode := 503, submitText := "boom",
          pollResp := fun _ => ⟨200, ⟨none, none⟩⟩, pollDur := fun _ => 0,
          startTime := 0, dlCode := 200, tmpPath := "/tmp/a",
          upload := Except.ok "u" } = Except.error (PyExc.runtimeError msg) ∧
      strContains msg (toString (503 : Nat)) = true ∧
      strContains msg "boom" = true) ∧
    create_avatar_job
        { jobId := "j2", submitCode := 201, submitText := "",
          pollResp := fun _ => ⟨200, ⟨none, none⟩⟩, pollDur := fun _ => 0,
          startTime := 0, dlCode := 200, tmpPath := "/tmp/a",
          upload := Except.ok "u" } = Except.ok "j2" := by
  have := C8_create_job_error_reporting
    { jobId := "j1", submitCode := 503, submitText := "boom",
      pollResp := fun _ => ⟨200, ⟨none, none⟩⟩, pollDur := fun _ => 0,
      startTime := 0, dlCode := 200, tmpPath := "/tmp/a", upload := Except.ok "u" }
    { jobId := "j2", submitCode := 201, submitText := "",
      pollResp := fun _ => ⟨200, ⟨none, none⟩⟩, pollDur := fun _ => 0,
      startTime := 0, dlCode := 200, tmpPath := "/tmp/a", upload := Except.ok "u" }
    (by decide) (by decide)
  simpa using this

/-- C5 (confirmed): for a parsed poll response, the loop returns exactly
when the status is "Succeeded" and the embedded result URL is present
(where, following the code's `if not video_url` truthiness test, the empty
string counts as absent), returning that URL; it raises the invariant
RuntimeError when the status is "Succeeded" but the URL is absent; and on
status "Failed" it raises an error carrying the provider's full parsed
response body. -/
theorem C5_poll_terminal_behaviour (d : PollData) (u : String) :
    (pollStep d = some (PollResult.ok u) ↔
      d.status = some "Succeeded" ∧ d.result = some u ∧ u ≠ "") ∧
    (pollStep d = some PollResult.invariantErr ↔
      d.status = some "Succeeded" ∧ (d.result = none ∨ d.result = some "")) ∧
    (pollStep d = some (PollResult.jobFailed d) ↔ d.status = some "Failed") ∧
    (∀ d2, pollStep d = some (PollResult.jobFailed d2) → d2 = d) := by
  by_cases hs : d.status = some "Succeeded"
  · cases hr : d.result with
    | none => simp [pollStep, hs, hr]
    | some v =>
      by_cases hv : v = ""
      · subst hv
        simp [pollStep, hs, hr]
        exact fun h => h.symm
      · simp [pollStep, hs, hr, hv]
        intro h h2
        exact hv (h ▸ h2)
  · by_cases hf : d.status = some "Failed"
    · simp [pollStep, hs, hf]
    · simp [pollStep, hs, hf]

/-- C5 witness: a Succeeded response with result "https://v" returns that
URL; with the result field absent it raises the invariant error; a Failed
response raises the job-failure error carrying the body. -/
theorem C5_poll_terminal_behaviour_witness :
    (pollStep ⟨some "Succeeded", some "https://v"⟩ = some (PollResult.ok "https://v") ↔
      (⟨some "Succeeded", some "https://v"⟩ : PollData).status = some "Succeeded" ∧
      (⟨some "Succeeded", some "https://v"⟩ : PollData).result = some "https://v" ∧
      "https://v" ≠ "") ∧
    (pollStep ⟨some "Succeeded", some "https://v"⟩ = some PollResult.invariantErr ↔
      (⟨some "Succeeded", some "https://v"⟩ : PollData).status = some "Succeeded" ∧
      ((⟨some "Succeeded", some "https://v"⟩ : PollData).result = none ∨
        (⟨some "Succeeded", some "https://v"⟩ : PollData).result = some "")) ∧
    (pollStep ⟨some "Succeeded", some "https://v"⟩ =
        some (PollResult.jobFailed ⟨some "Succeeded", some "https://v"⟩) ↔
      (⟨some "Succeeded", some "https://v"⟩ : PollData).status = some "Failed") ∧
    (∀ d2, pollStep ⟨some "Succeeded", some "https://v"⟩ =
        some (PollResult.jobFailed d2) → d2 = ⟨some "Succeeded", some "https://v"⟩) :=
  C5_poll_terminal_behaviour ⟨some "Succeeded", some "https://v"⟩ "https://v"

/-- A concrete external-world behaviour for counterexamples and witnesses:
every provider call succeeds and the job finishes on the first status
query. -/
def env1 : Env :=
  { jobId := "job-1", submitCode := 201, submitText := "",
    pollResp := fun _ => ⟨200, ⟨some "Succeeded", some "https://azure/video.mp4"⟩⟩,
    pollDur := fun _ => 0, startTime := 0, dlCode := 200, tmpPath := "/tmp/video.mp4",
    upload := Except.ok "https://cloudinary/secure.mp4" }

/-- C6 counterexample: for the authenticated request with text "hello" and
voice "bogus", the response is 400, but its error message contains none of
the valid voice ids, so it does not list the valid voices; it refers the
caller to GET /voices instead.  This refutes the claim that the 400
message lists the valid voices. -/
theorem C6_counterexample :
    (generate_avatar "secret" env1 3
        ⟨some "secret", some [("text", "hello"), ("voice", "bogus")]⟩).map
        (fun h => (h.status, h.error)) =
      some (400, some "Invalid voice \x27bogus\x27. See GET /voices for options.") ∧
    ALL_VOICES ≠ [] ∧
    ALL_VOICES.all (fun v =>
      ! strContains "Invalid voice \x27bogus\x27. See GET /voices for options." v) = true := by
  refine ⟨by decide, by decide, by decide⟩

/-- C6 (corrected): an authenticated request with non-empty trimmed text
and a voice outside the known voice set gets a 400 response whose error
message names the invalid voice and directs the caller to GET /voices for
the valid options (rather than listing the valid voices inline). -/
theorem C6_invalid_voice_message (apiKey : String) (e : Env) (fuel : Nat) (r : Req)
    (voice : String)
    (hk : resolvedKey r = Except.ok (some apiKey))
    (ht : pyStrip (((r.body.getD []).lookup "text").getD "") ≠ "")
    (hv : voice = ((r.body.getD []).lookup "voice").getD "th-TH-NiwatNeural")
    (hnv : voice ∉ ALL_VOICES) :
    generate_avatar apiKey e fuel r =
      some { status := 400,
             error := some ("Invalid voice \x27" ++ voice ++
               "\x27. See GET /voices for options."),
             video_url := none, job_id := none, deleted := false, trace := [] } := by
  subst hv
  unfold generate_avatar
  rw [hk]
  simp [validateBody, ht, hnv]

/-- C6 witness: the amended statement at the concrete request of the
counterexample. -/
theorem C6_invalid_voice_message_witness :
    generate_avatar "secret" env1 3
        ⟨some "secret", some [("text", "hello"), ("voice", "bogus")]⟩ =
      some { status := 400,
             error := some ("Invalid voice \x27" ++ "bogus" ++
               "\x27. See GET /voices for options."),
             video_url := none, job_id := none, deleted := false, trace := [] } :=
  C6_invalid_voice_message "secret" env1 3
    ⟨some "secret", some [("text", "hello"), ("voice", "bogus")]⟩ "bogus"
    (by decide) (by decide) (by decide) (by decide)

/-- C2 counterexample: a request with no X-API-Key header whose body does
not parse as a JSON object is answered with 400 (the abort raised by
`request.json` inside the auth line), not with 401, refuting the claim
that a missing API key yields 401 for every request body. -/
theorem C2_counterexample :
    (generate_avatar "secret" env1 3 ⟨none, none⟩).map (fun h => h.status) = some 400 ∧
    (400 : Nat) ≠ 401 := ⟨by decide, by decide⟩

/-- C2 (corrected): a request whose X-API-Key header is present, non-empty
and different from the configured key gets 401 whatever the body; when the
header is absent or empty, a body that parses as a JSON object whose "key"
field is not the configured key gets 401, but a body that does not parse
as a JSON object gets 400 from the JSON parser instead of 401. -/
theorem C2_auth_responses (apiKey : String) (e : Env) (fuel : Nat)
    (r1 r2 r3 : Req) (k : String) (b : List (String × String))
    (h1 : r1.headerKey = some k) (h2 : k ≠ "") (h3 : k ≠ apiKey)
    (h4 : r2.headerKey = none ∨ r2.headerKey = some "") (h5 : r2.body = some b)
    (h6 : b.lookup "key" ≠ some apiKey)
    (h7 : r3.headerKey = none ∨ r3.headerKey = some "") (h8 : r3.body = none) :
    (generate_avatar apiKey e fuel r1).map (fun h => h.status) = some 401 ∧
    (generate_avatar apiKey e fuel r2).map (fun h => h.status) = some 401 ∧
    (generate_avatar apiKey e fuel r3).map (fun h => h.status) = some 400 := by
  refine ⟨?_, ?_, ?_⟩
  · unfold generate_avatar resolvedKey
    rw [h1]
    simp [h2, h3]
  · unfold generate_avatar resolvedKey bodyKey
    rcases h4 with h4 | h4 <;> rw [h4, h5] <;> simp [h6]
  · unfold generate_avatar resolvedKey bodyKey
    rcases h7 with h7 | h7 <;> rw [h7, h8] <;> simp

/-- C2 witness: the amended statement at concrete requests - wrong header
key, missing key in a parseable body, and an unparseable body. -/
theorem C2_auth_responses_witness :
    (generate_avatar "secret" env1 3 ⟨some "wrong", some []⟩).map
        (fun h => h.status) = some 401 ∧
    (generate_avatar "secret" env1 3 ⟨none, some [("text", "hello")]⟩).map
        (fun h => h.status) = some 401 ∧
    (generate_avatar "secret" env1 3 ⟨none, none⟩).map (fun h => h.status) = some 400 :=
  C2_auth_responses "secret" env1 3 ⟨some "wrong", some []⟩ ⟨none, some [("text", "hello")]⟩
    ⟨none, none⟩ "wrong" [("text", "hello")]
    rfl (by decide) (by decide) (Or.inl rfl) rfl (by decide) (Or.inl rfl) rfl

/-- C1 counterexample: an authenticated, valid request for which the
artifact download is rejected with status 404 (submission and polling
succeed) is answered with 500, not with 502 as the claim states - the
HTTPError raised by `raise_for_status` is not a RuntimeError, so it falls
to the generic `except Exception` handler. -/
theorem C1_counterexample :
    (generate_avatar "secret" { env1 with dlCode := 404 } 3
        ⟨some "secret", some [("text", "hello")]⟩).map (fun h => h.status) = some 500 ∧
    (500 : Nat) ≠ 502 := ⟨by decide, by decide⟩

/-- C1 (corrected): when the artifact download is rejected by the provider
with a client/server error status (400 ≤ code < 600, the band on which
`raise_for_status` raises) or the hosting upload fails, the response
status is 500 (those failures raise requests.HTTPError and the cloudinary
error, which are not RuntimeErrors and land in the generic
`except Exception` clause), unlike a failed job submission, whose
RuntimeError is mapped to 502. -/
theorem C1_download_upload_failure_status (apiKey : String) (e eSub : Env)
    (fuel fuelSub : Nat) (r : Req)
    (q : String × String × String × String × Option String) (u : String) (tr : List Nat)
    (hk : resolvedKey r = Except.ok (some apiKey))
    (hv : validateBody (r.body.getD []) = Except.ok q)
    (hs : e.submitCode < 400)
    (hp : poll_avatar_job e.pollResp e.pollDur e.startTime 600 5 fuel = (PollResult.ok u, tr))
    (hsub : 400 ≤ eSub.submitCode) :
    (400 ≤ e.dlCode → e.dlCode < 600 →
      (generate_avatar apiKey e fuel r).map (fun h => h.status) = some 500) ∧
    (∀ m, e.dlCode < 400 → e.upload = Except.error m →
      (generate_avatar apiKey e fuel r).map (fun h => h.status) = some 500) ∧
    (generate_avatar apiKey eSub fuelSub r).map (fun h => h.status) = some 502 := by
  obtain ⟨text, voice, character, style, background⟩ := q
  refine ⟨?_, ?_, ?_⟩
  · intro hd hd6
    unfold generate_avatar
    rw [hk]
    simp only [tryBlock, hv, create_avatar_job, Nat.not_le.mpr hs, if_neg (Nat.not_le.mpr hs),
      if_false, hp, pollToExcept, download_file, if_pos (And.intro hd hd6)]
    simp [excResp, statusOfExc]
  · intro m hd hu
    have hcond : ¬(400 ≤ e.dlCode ∧ e.dlCode < 600) := by omega
    unfold generate_avatar
    rw [hk]
    simp only [tryBlock, hv, create_avatar_job, if_neg (Nat.not_le.mpr hs), hp, pollToExcept,
      download_file, if_neg hcond, upload_to_cloudinary, hu]
    simp [excResp, statusOfExc]
  · unfold generate_avatar
    rw [hk]
    simp only [tryBlock, hv, create_avatar_job, if_pos hsub]
    simp [excResp, statusOfExc]

/-- C1 witness: the corrected statement at a concrete run whose download
is rejected with 404, and a second environment whose submission is
rejected with 500. -/
theorem C1_download_upload_failure_status_witness :
    (400 ≤ (404 : Nat) → (404 : Nat) < 600 →
      (generate_avatar "secret" { env1 with dlCode := 404 } 3
          ⟨some "secret", some [("text", "hello")]⟩).map (fun h => h.status) = some 500) ∧
    (∀ m, (404 : Nat) < 400 → ({ env1 with dlCode := 404 } : Env).upload = Except.error m →
      (generate_avatar "secret" { env1 with dlCode := 404 } 3
          ⟨some "secret", some [("text", "hello")]⟩).map (fun h => h.status) = some 500) ∧
    (generate_avatar "secret" { env1 with submitCode := 500 } 3
        ⟨some "secret", some [("text", "hello")]⟩).map (fun h => h.status) = some 502 :=
  C1_download_upload_failure_status "secret" { env1 with dlCode := 404 }
    { env1 with submitCode := 500 } 3 3 ⟨some "secret", some [("text", "hello")]⟩
    ("hello", "th-TH-NiwatNeural", "harry", "casual", none) "https://azure/video.mp4" [0]
    (by decide) (by decide) (by decide) (by decide) (by decide)

/-- C3 (confirmed): for an authenticated request, the validation checks run
in source order - text non-empty after trimming, voice in the known voice
set, character a known catalog key, style in that character's allowed
list - and the first failing check is answered with 400 and its message,
with no outbound network call made (the trace of external calls is
empty). -/
theorem C3_validation_order_and_no_calls (apiKey : String) (e : Env) (fuel : Nat)
    (r : Req) (b : List (String × String)) (text voice character style : String)
    (hk : resolvedKey r = Except.ok (some apiKey))
    (hb : r.body.getD [] = b)
    (htext : text = pyStrip ((b.lookup "text").getD ""))
    (hvoice : voice = (b.lookup "voice").getD "th-TH-NiwatNeural")
    (hchar : character = (b.lookup "talkingAvatarCharacter").getD "harry")
    (hstyle : style = (b.lookup "talkingAvatarStyle").getD "casual") :
    (text = "" → generate_avatar apiKey e fuel r =
      some { status := 400, error := some "Missing \x27text\x27 field",
             video_url := none, job_id := none, deleted := false, trace := [] }) ∧
    (text ≠ "" → voice ∉ ALL_VOICES → generate_avatar apiKey e fuel r =
      some { status := 400,
             error := some ("Invalid voice \x27" ++ voice ++
               "\x27. See GET /voices for options."),
             video_url := none, job_id := none, deleted := false, trace := [] }) ∧
    (text ≠ "" → voice ∈ ALL_VOICES → AVATARS.lookup character = none →
      generate_avatar apiKey e fuel r =
      some { status := 400,
             error := some ("Invalid character \x27" ++ character ++
               "\x27. See GET /models for options."),
             video_url := none, job_id := none, deleted := false, trace := [] }) ∧
    (∀ styles, text ≠ "" → voice ∈ ALL_VOICES → AVATARS.lookup character = some styles →
      style ∉ styles → generate_avatar apiKey e fuel r =
      some { status := 400,
             error := some ("Invalid style \x27" ++ style ++ "\x27 for character \x27" ++
               character ++ "\x27. Valid: " ++ stylesRepr styles),
             video_url := none, job_id := none, deleted := false, trace := [] }) := by
  subst htext hvoice hchar hstyle
  refine ⟨?_, ?_, ?_, ?_⟩
  · intro h1
    unfold generate_avatar
    rw [hk]
    simp [validateBody, hb, h1]
  · intro h1 h2
    unfold generate_avatar
    rw [hk]
    simp [validateBody, hb, h1, h2]
  · intro h1 h2 h3
    unfold generate_avatar
    rw [hk]
    simp [validateBody, hb, h1, h2, h3]
  · intro styles h1 h2 h3 h4
    unfold generate_avatar
    rw [hk]
    simp [validateBody, hb, h1, h2, h3, h4]

/-- C3 witness: the statement at a concrete authenticated request whose
style "formal" is not allowed for character "harry". -/
theorem C3_validation_order_and_no_calls_witness :
    ((pyStrip ((([("text", "hi"), ("talkingAvatarStyle", "formal")] :
        List (String × String)).lookup "text").getD "") = "" →
      generate_avatar "secret" env1 3
          ⟨some "secret", some [("text", "hi"), ("talkingAvatarStyle", "formal")]⟩ =
        some { status := 400, error := some "Missing \x27text\x27 field",
               video_url := none, job_id := none, deleted := false, trace := [] }) ∧
    (pyStrip ((([("text", "hi"), ("talkingAvatarStyle", "formal")] :
        List (String × String)).lookup "text").getD "") ≠ "" →
      (([("text", "hi"), ("talkingAvatarStyle", "formal")] :
        List (String × String)).lookup "voice").getD "th-TH-NiwatNeural" ∉ ALL_VOICES →
      generate_avatar "secret" env1 3
          ⟨some "secret", some [("text", "hi"), ("talkingAvatarStyle", "formal")]⟩ =
        some { status := 400,
               error := some ("Invalid voice \x27" ++
                 ((([("text", "hi"), ("talkingAvatarStyle", "formal")] :
                   List (String × String)).lookup "voice").getD "th-TH-NiwatNeural") ++
                 "\x27. See GET /voices for options."),
               video_url := none, job_id := none, deleted := false, trace := [] }) ∧
    (pyStrip ((([("text", "hi"), ("talkingAvatarStyle", "formal")] :
        List (String × String)).lookup "text").getD "") ≠ "" →
      (([("text", "hi"), ("talkingAvatarStyle", "formal")] :
        List (String × String)).lookup "voice").getD "th-TH-NiwatNeural" ∈ ALL_VOICES →
      AVATARS.lookup ((([("text", "hi"), ("talkingAvatarStyle", "formal")] :
        List (String × String)).lookup "talkingAvatarCharacter").getD "harry") = none →
      generate_avatar "secret" env1 3
          ⟨some "secret", some [("text", "hi"), ("talkingAvatarStyle", "formal")]⟩ =
        some { status := 400,
               error := some ("Invalid character \x27" ++
                 ((([("text", "hi"), ("talkingAvatarStyle", "formal")] :
                   List (String × String)).lookup "talkingAvatarCharacter").getD "harry") ++
                 "\x27. See GET /models for options."),
               video_url := none, job_id := none, deleted := false, trace := [] }) ∧
    (∀ styles,
      pyStrip ((([("text", "hi"), ("talkingAvatarStyle", "formal")] :
        List (String × String)).lookup "text").getD "") ≠ "" →
      (([("text", "hi"), ("talkingAvatarStyle", "formal")] :
        List (String × String)).lookup "voice").getD "th-TH-NiwatNeural" ∈ ALL_VOICES →
      AVATARS.lookup ((([("text", "hi"), ("talkingAvatarStyle", "formal")] :
        List (String × String)).lookup "talkingAvatarCharacter").getD "harry") =
        some styles →
      (([("text", "hi"), ("talkingAvatarStyle", "formal")] :
        List (String × String)).lookup "talkingAvatarStyle").getD "casual" ∉ styles →
      generate_avatar "secret" env1 3
          ⟨some "secret", some [("text", "hi"), ("talkingAvatarStyle", "formal")]⟩ =
        some { status := 400,
               error := some ("Invalid style \x27" ++
                 ((([("text", "hi"), ("talkingAvatarStyle", "formal")] :
                   List (String × String)).lookup "talkingAvatarStyle").getD "casual") ++
                 "\x27 for character \x27" ++
                 ((([("text", "hi"), ("talkingAvatarStyle", "formal")] :
                   List (String × String)).lookup "talkingAvatarCharacter").getD "harry") ++
                 "\x27. Valid: " ++ stylesRepr styles),
               video_url := none, job_id := none, deleted := false, trace := [] })) :=
  C3_validation_order_and_no_calls "secret" env1 3
    ⟨some "secret", some [("text", "hi"), ("talkingAvatarStyle", "formal")]⟩
    [("text", "hi"), ("talkingAvatarStyle", "formal")] _ _ _ _
    (by decide) rfl rfl rfl rfl rfl

/-- C9 (confirmed): the temporary file is deleted exactly on the success
path - for every request that gets a response, the file was deleted iff
the response is the 200 success; on every failure path (including upload
failure and the unexpected-error paths after the download) it is not
deleted. -/
theorem C9_temp_file_deleted_iff_success (apiKey : String) (e : Env) (fuel : Nat)
    (r : Req) (res : HResp) (h : generate_avatar apiKey e fuel r = some res) :
    res.deleted = true ↔ res.status = 200 := by
  rcases generate_avatar_cases h with ⟨h1, h2⟩ | ⟨h1, h2⟩ | ⟨h1, h2⟩ | ⟨exc, calls, rfl⟩
  · rw [h1, h2]
    simp
  · rw [h1, h2]
    simp
  · rw [h1, h2]
    simp
  · rw [excResp_deleted]
    simp only [excResp]
    constructor
    · intro h3
      exact absurd h3 (by simp)
    · intro h3
      exact absurd h3 (statusOfExc_ne_200 exc)

/-- C9 witness: a fully successful concrete run (response 200, file
deleted) instantiating the statement. -/
theorem C9_temp_file_deleted_iff_success_witness :
    ({ status := 200, error := none, video_url := some "https://cloudinary/secure.mp4",
       job_id := some "job-1", deleted := true,
       trace := [ExtCall.submit "hello" "th-TH-NiwatNeural" "harry" "casual" none,
         ExtCall.poll, ExtCall.download, ExtCall.upload] } : HResp).deleted = true ↔
    ({ status := 200, error := none, video_url := some "https://cloudinary/secure.mp4",
       job_id := some "job-1", deleted := true,
       trace := [ExtCall.submit "hello" "th-TH-NiwatNeural" "harry" "casual" none,
         ExtCall.poll, ExtCall.download, ExtCall.upload] } : HResp).status = 200 :=
  C9_temp_file_deleted_iff_success "secret" env1 3
    ⟨some "secret", some [("text", "hello")]⟩ _ (by decide)

/-- C10 (confirmed): when voice, talkingAvatarCharacter and
talkingAvatarStyle are omitted, the defaults "th-TH-NiwatNeural", "harry"
and "casual" are substituted, and they always pass validation: the default
voice is in ALL_VOICES, "harry" is a catalog key, and "casual" is in
harry's allowed styles - so an authenticated request with non-empty
trimmed text never receives a 400 validation response. -/
theorem C10_defaults_pass_validation (apiKey : String) (e : Env) (fuel : Nat)
    (r : Req) (b : List (String × String))
    (hkey : apiKey ≠ "")
    (hk : r.headerKey = some apiKey)
    (hb : r.body = some b)
    (hvo : b.lookup "voice" = none)
    (hch : b.lookup "talkingAvatarCharacter" = none)
    (hst : b.lookup "talkingAvatarStyle" = none)
    (ht : pyStrip ((b.lookup "text").getD "") ≠ "") :
    validateBody b = Except.ok (pyStrip ((b.lookup "text").getD ""), "th-TH-NiwatNeural",
      "harry", "casual", b.lookup "background") ∧
    "th-TH-NiwatNeural" ∈ ALL_VOICES ∧
    AVATARS.lookup "harry" = some ["business", "casual", "youthful"] ∧
    "casual" ∈ ["business", "casual", "youthful"] ∧
    (∀ res, generate_avatar apiKey e fuel r = some res → res.status ≠ 400) := by
  have hval : validateBody b = Except.ok (pyStrip ((b.lookup "text").getD ""),
      "th-TH-NiwatNeural", "harry", "casual", b.lookup "background") := by
    unfold validateBody
    rw [hvo, hch, hst]
    simp only [Option.getD_none, if_neg ht]
    have h1 : "th-TH-NiwatNeural" ∈ ALL_VOICES := by decide
    have h2 : AVATARS.lookup "harry" = some ["business", "casual", "youthful"] := by decide
    rw [if_pos h1, h2]
    simp
  refine ⟨hval, by decide, by decide, by decide, ?_⟩
  have hrk : resolvedKey r = Except.ok (some apiKey) := by
    unfold resolvedKey
    rw [hk]
    simp [hkey]
  have hga : generate_avatar apiKey e fuel r =
      tryBlock e fuel (pyStrip ((b.lookup "text").getD "")) "th-TH-NiwatNeural" "harry"
        "casual" (b.lookup "background") := by
    unfold generate_avatar
    rw [hrk]
    simp [hb, hval]
  intro res h
  rw [hga] at h
  rcases tryBlock_cases h with ⟨h1, _⟩ | ⟨exc, calls, rfl⟩
  · omega
  · simp only [excResp]
    rcases statusOfExc_cases exc with h2 | h2 | h2 <;> simp [h2]

/-- C10 witness: the statement at the concrete request with only a text
field; the run succeeds with status 200, so the 400-free conclusion is not
vacuous. -/
theorem C10_defaults_pass_validation_witness :
    validateBody [("text", "hello")] =
      Except.ok (pyStrip ((([("text", "hello")] :
          List (String × String)).lookup "text").getD ""), "th-TH-NiwatNeural",
        "harry", "casual", ([("text", "hello")] :
          List (String × String)).lookup "background") ∧
    "th-TH-NiwatNeural" ∈ ALL_VOICES ∧
    AVATARS.lookup "harry" = some ["business", "casual", "youthful"] ∧
    "casual" ∈ ["business", "casual", "youthful"] ∧
    (∀ res, generate_avatar "secret" env1 3 ⟨some "secret", some [("text", "hello")]⟩ =
      some res → res.status ≠ 400) :=
  C10_defaults_pass_validation "secret" env1 3 ⟨some "secret", some [("text", "hello")]⟩
    [("text", "hello")] (by decide) rfl rfl (by decide) (by decide) (by decide) (by decide)

/-- C4 (confirmed): when the provider never reports a status other than
"Pending", poll_avatar_job fails with the timeout error at a clock value at
or after start + timeout - never before - and the route answers such a
request with 504.  (The fuel hypotheses only make the loop model total;
with an interval of at least one second, timeout + 1 iterations always
suffice to reach the deadline.) -/
theorem C4_poll_timeout_and_504 (resp : Nat → PollResp) (dur : Nat → Nat)
    (start timeout interval fuel : Nat) (apiKey : String) (e : Env) (fuel2 : Nat)
    (r : Req) (q : String × String × String × String × Option String)
    (hi : 1 ≤ interval) (hfuel : timeout ≤ fuel)
    (hpend : ∀ n, (resp n).code < 400 ∧ (resp n).data.status = some "Pending")
    (hk : resolvedKey r = Except.ok (some apiKey))
    (hv : validateBody (r.body.getD []) = Except.ok q)
    (hs : e.submitCode < 400)
    (hpend2 : ∀ n, (e.pollResp n).code < 400 ∧ (e.pollResp n).data.status = some "Pending")
    (hfuel2 : 600 ≤ fuel2) :
    (∃ tEnd tr, poll_avatar_job resp dur start timeout interval fuel =
        (PollResult.timedOut tEnd, tr) ∧ start + timeout ≤ tEnd) ∧
    (∃ res, generate_avatar apiKey e fuel2 r = some res ∧ res.status = 504) := by
  constructor
  · have hp : ∀ n, (resp n).code < 400 ∧ pollStep (resp n).data = none :=
      fun n => ⟨(hpend n).1, pollStep_pending (hpend n).2⟩
    exact pollLoop_timeout resp dur (start + timeout) interval hi hp fuel start [] (by omega)
  · obtain ⟨text, voice, character, style, background⟩ := q
    have hp2 : ∀ n, (e.pollResp n).code < 400 ∧ pollStep (e.pollResp n).data = none :=
      fun n => ⟨(hpend2 n).1, pollStep_pending (hpend2 n).2⟩
    obtain ⟨tEnd, tr, hpoll, htEnd⟩ :=
      pollLoop_timeout e.pollResp e.pollDur (e.startTime + 600) 5 (by omega) hp2 fuel2
        e.startTime [] (by omega)
    refine ⟨excResp (PyExc.timeoutError ("Avatar job " ++ e.jobId ++
        " did not finish within " ++ toString (600 : Nat) ++ "s"))
        (ExtCall.submit text voice character style background ::
          tr.map (fun _ => ExtCall.poll)), ?_, rfl⟩
    unfold generate_avatar
    rw [hk]
    simp only [tryBlock, create_avatar_job, if_neg (Nat.not_le.mpr hs), hv,
      poll_avatar_job, hpoll, pollToExcept]
    simp

/-- C4 witness: a provider that stays Pending, with timeout 3 and interval
1, plus a concrete request served with fuel 600. -/
theorem C4_poll_timeout_and_504_witness :
    (∃ tEnd tr, poll_avatar_job (fun _ => ⟨200, ⟨some "Pending", none⟩⟩) (fun _ => 0)
        7 3 1 3 = (PollResult.timedOut tEnd, tr) ∧ 7 + 3 ≤ tEnd) ∧
    (∃ res, generate_avatar "secret"
        { env1 with pollResp := fun _ => ⟨200, ⟨some "Pending", none⟩⟩ } 600
        ⟨some "secret", some [("text", "hello")]⟩ = some res ∧ res.status = 504) :=
  C4_poll_timeout_and_504 (fun _ => ⟨200, ⟨some "Pending", none⟩⟩) (fun _ => 0)
    7 3 1 3 "secret" { env1 with pollResp := fun _ => ⟨200, ⟨some "Pending", none⟩⟩ }
    600 ⟨some "secret", some [("text", "hello")]⟩
    ("hello", "th-TH-NiwatNeural", "harry", "casual", none)
    (by decide) (by decide) (fun n => ⟨of_decide_eq_true rfl, rfl⟩)
    (by decide) (by decide) (by decide) (fun n => ⟨of_decide_eq_true rfl, rfl⟩) (by decide)

/-- C7 (confirmed): when the provider answers the first N - 1 status
queries with Pending and the Nth with Succeeded and a non-empty
outputs.result, and queries are instantaneous (dur = 0, as with a mock
provider), poll_avatar_job issues exactly N queries at clock values
start, start + interval, ..., start + (N-1) * interval - consecutive
queries separated by exactly interval - and returns that result URL.  The
hypothesis (N-1) * interval < timeout states that the Nth query happens
before the deadline, which is what makes the scenario realisable. -/
theorem C7_poll_success_after_N (resp : Nat → PollResp)
    (start timeout interval fuel N : Nat) (u : String)
    (hN : 1 ≤ N) (hfuel : N ≤ fuel) (htime : (N - 1) * interval < timeout)
    (hpend : ∀ j, j + 1 < N → (resp j).code < 400 ∧ (resp j).data.status = some "Pending")
    (hc : (resp (N - 1)).code < 400)
    (hsucc : (resp (N - 1)).data.status = some "Succeeded")
    (hres : (resp (N - 1)).data.result = some u) (hu : u ≠ "") :
    poll_avatar_job resp (fun _ => 0) start timeout interval fuel =
      (PollResult.ok u, pollTimes start interval N) ∧
    (pollTimes start interval N).length = N ∧
    (∀ j, j + 1 < N → (pollTimes start interval N).getD (j + 1) 0 =
      (pollTimes start interval N).getD j 0 + interval) := by
  obtain ⟨M, rfl⟩ : ∃ M, N = M + 1 := ⟨N - 1, by omega⟩
  simp only [Nat.add_sub_cancel] at htime hc hsucc hres
  refine ⟨?_, pollTimes_length interval (M + 1) start, ?_⟩
  · have hstep : pollStep (resp M).data = some (PollResult.ok u) := by
      simp [pollStep, hsucc, hres, hu]
    have hmain := pollLoop_ok_trace resp (start + timeout) interval u M fuel start []
      (fun j hj => by
        have h := hpend j (by omega)
        exact ⟨by simpa using h.1, by simpa using pollStep_pending h.2⟩)
      (by simpa using hc) (by simpa using hstep) (by omega) (by omega)
    simpa [poll_avatar_job] using hmain
  · intro j hj
    rw [pollTimes_getD interval (M + 1) start (j + 1) (by omega),
      pollTimes_getD interval (M + 1) start j (by omega)]
    ring

/-- C7 witness: a mock provider Pending on the first query and Succeeded
with a result URL on the second; with interval 3 the two queries happen at
clock 7 and 10 and the URL is returned. -/
theorem C7_poll_success_after_N_witness :
    poll_avatar_job
        (fun n => if n = 0 then ⟨200, ⟨some "Pending", none⟩⟩
          else ⟨200, ⟨some "Succeeded", some "https://v"⟩⟩) (fun _ => 0) 7 10 3 2 =
      (PollResult.ok "https://v", pollTimes 7 3 2) ∧
    (pollTimes 7 3 2).length = 2 ∧
    (∀ j, j + 1 < 2 → (pollTimes 7 3 2).getD (j + 1) 0 =
      (pollTimes 7 3 2).getD j 0 + 3) :=
  C7_poll_success_after_N
    (fun n => if n = 0 then ⟨200, ⟨some "Pending", none⟩⟩
      else ⟨200, ⟨some "Succeeded", some "https://v"⟩⟩) 7 10 3 2 2 "https://v"
    (by decide) (by decide) (by decide)
    (fun j hj => by
      have : j = 0 := by omega
      subst this
      exact ⟨by decide, rfl⟩)
    (by decide) (by decide) (by decide) (by decide)
